import Mathlib

/-!
Verification of the `meta_models` meta-layer graph engine.

Shallow embedding of the meta-layer / meta-model hyper-parameter engine of
the `meta_models` repository (packages `meta_models.meta_layers` and
`meta_models.meta_models`).

Modelling conventions:
* Python floats are modelled as rationals (`ℚ`); `np.isclose` is modelled
  with its documented default tolerances `atol = 1e-8`, `rtol = 1e-5`.
* Python `int(x)` truncates toward zero (`Int.tdiv`), `round(x)` rounds half
  to even (banker's rounding).
* Python strings are Lean `String`s; `str.startswith`, slicing `s[n:]` and
  `len` act on code points, i.e. on `String.data`.
* Keras layer constructors are opaque black boxes; we model the handles they
  return as an inductive tree `Artifact` recording the constructor and its
  arguments.  `None` is `Artifact.noneA`, a Python list of handles is
  `Artifact.listA`.
* The mutable object graph is an arena: a `Graph` is a list of `Node`s, a
  node's `preds` field holds arena indices of its `_input_layers`.  The
  mutable per-node fields (`_rendered_space`, `_rendered_defaults`,
  `_layer`) live in an explicit state `EngSt` threaded through the engine;
  Python exceptions are `Except PyErr` results (state changes made before an
  exception persist, as attribute writes do in Python).
* `EngSt.buildCount` / `EngSt.receivedKw` are instrumentation: the build
  count side channel counts invocations of a node's `_build`, and
  `receivedKw` records the keyword arguments the last such invocation got.
-/

/-- Python-style error taxonomy for the engine. -/
inductive PyErr
  | typeError
  | valueError
  | keyError
  | attributeError
  | indexError
  | fuelOut
  deriving DecidableEq, Repr

/-- Model of `np.isclose a b` with numpy's default tolerances
`|a - b| ≤ atol + rtol * |b|`, `atol = 1e-8`, `rtol = 1e-5`. -/
def iscloseQ (a b : ℚ) : Bool :=
  |a - b| ≤ 1 / 100000000 + (1 / 100000) * |b|

/-- Python `int(x)` on a float/rational: truncation toward zero. -/
def pyInt (q : ℚ) : ℤ := Int.tdiv q.num q.den

/-- Python `round(x)`: round half to even (banker's rounding). -/
def pyRound (q : ℚ) : ℤ :=
  let f := ⌊q⌋
  let r := q - f
  if r < 1 / 2 then f
  else if 1 / 2 < r then f + 1
  else if f % 2 = 0 then f else f + 1

/-- Python `len(s)` counts code points. -/
def strLen (s : String) : Nat := s.data.length

/-- Python `s.startswith(p)`. -/
def strStartsWith (s p : String) : Bool := p.data.isPrefixOf s.data

/-- Python `s[n:]` (drop the first `n` code points). -/
def strDrop (s : String) (n : Nat) : String := ⟨s.data.drop n⟩

/-- A hyper-parameter declaration as it appears in a `_space()` mapping:
either an untagged `(low, high)` pair (the `DenseMetaLayer` /
`RegularizedMetaLayer` family) or a `(distribution, low, high)` triple (the
`MaxPool1D` / `Dropout` / `Conv1DRectangular` family, built from the
`distributions` named tuple of string tags).  No shipped `_space`
implementation emits a choice-list declaration. -/
inductive Decl
  | pair (lo hi : ℚ)
  | triple (kind : String) (lo hi : ℚ)
  deriving DecidableEq, Repr

/-- Whether a declaration carries its distribution kind. -/
def Decl.hasKind : Decl → Bool
  | .pair _ _ => false
  | .triple _ _ _ => true

/-- A flat keyword-argument mapping (a Python `dict` of sampled values),
as an ordered association list with unique keys. -/
abbrev KwMap := List (String × ℚ)

/-- A hyper-parameter space mapping, ordered like the Python `dict`. -/
abbrev SpaceMap := List (String × Decl)

/-- First-match lookup, the Python `dict.__getitem__` of our assoc lists. -/
def kwLookup (kw : KwMap) (k : String) : Option ℚ :=
  (kw.find? (fun kv => kv.1 == k)).map (·.2)

/-- Remove a key (used for binding a keyword argument to a parameter). -/
def kwRemove (kw : KwMap) (k : String) : KwMap :=
  kw.filter (fun kv => kv.1 != k)

/-- Python dict "insert or overwrite" preserving first-insertion order. -/
def dictInsert (d : SpaceMap) (k : String) (v : Decl) : SpaceMap :=
  if d.any (fun kv => kv.1 == k) then
    d.map (fun kv => if kv.1 == k then (k, v) else kv)
  else d ++ [(k, v)]

/-- Python `d.update(m)` on dicts. -/
def dictUpdate (d m : SpaceMap) : SpaceMap :=
  m.foldl (fun acc kv => dictInsert acc kv.1 kv.2) d

/-- Model of `dict(ChainMap(*maps))`: lookup is first-map-wins; iteration inserts the
maps in reverse order into a fresh dict, so earlier maps overwrite later
ones, exactly as `collections.ChainMap.__iter__` behaves. -/
def chainIter (maps : List SpaceMap) : SpaceMap :=
  maps.reverse.foldl dictUpdate []

/-- The opaque handles returned by the external layer library (Keras), as
trees recording which constructor was applied to which arguments.
`noneA` is Python `None` (zero predecessors), `listA` a Python list of
handles (more than one predecessor). -/
inductive Artifact
  | noneA
  | listA (xs : List Artifact)
  | inputA (shape : List ℤ) (name : Option String)
  | denseA (units : ℤ) (inp : Artifact)
  | batchNormA (inp : Artifact)
  | activationA (name : String) (inp : Artifact)
  | conv1dA (filters kernel strides : ℤ)
      (regs : List (String × Option ℚ × Option ℚ)) (inp : Artifact)
  | addA (xs : List Artifact)
  | maxpoolA (pool : ℤ) (inp : Artifact)
  | dropoutA (rate : ℚ) (inp : Artifact)
  | concatA (xs : List Artifact)
  deriving Repr

/-- Python `x is None` on a built artifact. -/
def Artifact.isNone : Artifact → Bool
  | .noneA => true
  | _ => false

/-- Construction-time configuration of `DenseMetaLayer` (which inherits
directly from `MetaLayer` and carries its own regularization flags). -/
structure DenseCfg where
  minUnits : ℚ
  maxUnits : ℚ
  activation : String
  minL1 : ℚ
  maxL1 : ℚ
  minL2 : ℚ
  maxL2 : ℚ
  batchNorm : Bool
  activityReg : Bool
  kernelReg : Bool
  biasReg : Bool
  deriving DecidableEq, Repr

/-- Construction-time configuration of `Conv1DMetaLayer`, which inherits the
regularization and dropout fields from `RegularizedMetaLayer`
(`_dropout` is the *boolean* flag stored by `RegularizedMetaLayer.__init__`). -/
structure ConvCfg where
  minFilters : ℚ
  maxFilters : ℚ
  minKernel : ℚ
  maxKernel : ℚ
  activation : String
  minL1 : ℚ
  maxL1 : ℚ
  minL2 : ℚ
  maxL2 : ℚ
  minDropoutRate : ℚ
  maxDropoutRate : ℚ
  batchNorm : Bool
  activityReg : Bool
  kernelReg : Bool
  biasReg : Bool
  dropout : Bool
  deriving DecidableEq, Repr

/-! ## Local `_space()` declarations, per concrete meta-layer class -/

/-- Embedding of `DenseMetaLayer._space`.  When any regularizer flag is enabled, the dict
comprehension evaluates `"{regularizer}_{reg_type}".format()` with *no*
arguments, which raises `KeyError('regularizer')`; otherwise only the
`units` bounds are declared. -/
def denseLocalSpace (cfg : DenseCfg) : Except PyErr SpaceMap :=
  if cfg.activityReg || cfg.kernelReg || cfg.biasReg then .error .keyError
  else .ok [("units", .pair cfg.minUnits cfg.maxUnits)]

/-- Embedding of `DenseRectangularMetaLayer._space`: the parent's declarations plus the
`layers` bounds. -/
def denseRectLocalSpace (cfg : DenseCfg) (minLayers maxLayers : ℚ) :
    Except PyErr SpaceMap :=
  (denseLocalSpace cfg).map (· ++ [("layers", .pair minLayers maxLayers)])

/-- The two `(name_l1, name_l2)` entries declared for one active
regularizer by `RegularizedMetaLayer._space`. -/
def regEntries (cfg : ConvCfg) (name : String) : SpaceMap :=
  [(name ++ "_l1", .pair cfg.minL1 cfg.maxL1),
   (name ++ "_l2", .pair cfg.minL2 cfg.maxL2)]

/-- The list of maps fed to `ChainMap` by `RegularizedMetaLayer._space`:
one map per *enabled* regularizer (activity, kernel, bias, in that order)
and the dropout-rate map when the dropout flag is set. -/
def regMaps (cfg : ConvCfg) : List SpaceMap :=
  ((if cfg.activityReg then [regEntries cfg "activity_regularizer"] else []) ++
   (if cfg.kernelReg then [regEntries cfg "kernel_regularizer"] else []) ++
   (if cfg.biasReg then [regEntries cfg "bias_regularizer"] else [])) ++
  [if cfg.dropout then
     [("dropout_rate", .pair cfg.minDropoutRate cfg.maxDropoutRate)]
   else []]

/-- Embedding of `RegularizedMetaLayer._space` (a `ChainMap`, iterated dict-style). -/
def regularizedLocalSpace (cfg : ConvCfg) : SpaceMap :=
  chainIter (regMaps cfg)

/-- Embedding of `Conv1DMetaLayer._space`: filter and kernel bounds, then the inherited
regularization declarations. -/
def conv1dLocalSpace (cfg : ConvCfg) : SpaceMap :=
  [("filters", .pair cfg.minFilters cfg.maxFilters),
   ("kernel_size", .pair cfg.minKernel cfg.maxKernel)] ++
  regularizedLocalSpace cfg

/-- Embedding of `Conv1DRectangularMetaLayer._space`: the parent's declarations plus
kinded `strides` and `layers` triples and the inlined `pool_size` triple of
the nested `MaxPool1DMetaLayer` (`distributions.integer = "integer"`). -/
def conv1dRectLocalSpace (cfg : ConvCfg)
    (minLayers maxLayers minStrides maxStrides minPool maxPool : ℚ) :
    SpaceMap :=
  conv1dLocalSpace cfg ++
  [("strides", .triple "integer" minStrides maxStrides),
   ("layers", .triple "integer" minLayers maxLayers),
   ("pool_size", .triple "integer" minPool maxPool)]

/-- The behavioural class of a node, with its construction-time
configuration (everything a `_space`/`_build` pair consults). -/
inductive NodeKind
  | inputK (shape : List ℤ) (name : Option String)
  | denseK (cfg : DenseCfg)
  | denseRectK (cfg : DenseCfg) (minLayers maxLayers : ℚ) (residual : Bool)
  | conv1dRectK (cfg : ConvCfg)
      (minLayers maxLayers minStrides maxStrides minPool maxPool : ℚ)
      (residual : Bool)
  | maxpoolK (minPool maxPool : ℚ)
  | dropoutK (minRate maxRate : ℚ)
  | concatK
  deriving Repr

/-- Dispatch of `_space()` over each node kind (`InputMetaLayer` and
`ConcatenateMetaLayer` declare empty spaces; `MaxPool1DMetaLayer` and
`DropoutMetaLayer` declare kinded triples). -/
def localSpaceOf : NodeKind → Except PyErr SpaceMap
  | .inputK _ _ => .ok []
  | .denseK cfg => denseLocalSpace cfg
  | .denseRectK cfg minL maxL _ => denseRectLocalSpace cfg minL maxL
  | .conv1dRectK cfg minL maxL minS maxS minP maxP _ =>
      .ok (conv1dRectLocalSpace cfg minL maxL minS maxS minP maxP)
  | .maxpoolK minP maxP => .ok [("pool_size", .triple "integer" minP maxP)]
  | .dropoutK minR maxR => .ok [("dropout_rate", .triple "real" minR maxR)]
  | .concatK => .ok []

/-- One meta-layer instance in the arena: its class name and instance id
(the `Namespacer` data), its separator, the arena indices of its
`_input_layers`, and its behavioural kind. -/
structure Node where
  typeName : String
  sep : String
  id : Nat
  preds : List Nat
  kind : NodeKind

/-- Embedding of `MetaLayer.layer_prefix`: `separator.join((class_name, str(id)))`. -/
def Node.layerPfx (n : Node) : String := n.typeName ++ n.sep ++ toString n.id

/-- A fully-namespaced key: `separator.join((layer_prefix, key))`. -/
def Node.nsKey (n : Node) (k : String) : String := n.layerPfx ++ n.sep ++ k

/-- The mutable object graph (arena of meta-layer instances). -/
abbrev Graph := List Node

/-! ## The namespace counter (`MetaLayer.layer_ids`) -/

/-- The process-wide `layer_ids` mapping from class name to next id. -/
abbrev Counters := List (String × Nat)

/-- Embedding of `MetaLayer.reset_counter()`: replaces the whole mapping by `{}`. -/
def resetCounterF (_c : Counters) : Counters := []

/-- The id-allocation step of `MetaLayer.__init__`:
`id = layer_ids.get(cls, 0); layer_ids[cls] = id + 1`. -/
def allocId (c : Counters) (typeName : String) : Nat × Counters :=
  let i := ((c.find? (fun kv => kv.1 == typeName)).map (·.2)).getD 0
  (i, (typeName, i + 1) ::
      c.filter (fun kv => kv.1 != typeName))

/-- Construct a topology (a sequence of node instantiations, identified by
their class names) and return the allocated instance ids. -/
def allocIds (names : List String) (c : Counters) : List Nat × Counters :=
  match names with
  | [] => ([], c)
  | n :: tl =>
      let (i, c1) := allocId c n
      let (is, c2) := allocIds tl c1
      (i :: is, c2)

/-- The layer prefixes a topology-construction run produces, starting from
counter state `c` after an explicit `reset_counter()`. -/
def runPfxs (names : List String) (sep : String) (c : Counters) :
    List String :=
  let (ids, _) := allocIds names (resetCounterF c)
  List.zipWith (fun n i => n ++ sep ++ toString i) names ids

/-! ## Per-class `_build` construction procedures -/

/-- Body of `DenseMetaLayer._build`: `units = int(units)`; a zero unit count
returns the input unchanged; otherwise `Dense`, optional `BatchNormalization`
and `Activation` are applied in that order. -/
def denseCore (cfg : DenseCfg) (inp : Artifact) (units : ℚ) : Artifact :=
  let u := pyInt units
  if u = 0 then inp
  else
    .activationA cfg.activation
      (if cfg.batchNorm then .batchNormA (.denseA u inp) else .denseA u inp)

/-- Embedding of `DenseMetaLayer._build` reached through keyword binding.  Its signature
`(self, input_layers, units)` has no `**kwargs`: a missing `units` or any
extra keyword raises `TypeError`. -/
def denseBuildKw (cfg : DenseCfg) (inp : Artifact) (kw : KwMap) :
    Except PyErr Artifact :=
  match kwLookup kw "units" with
  | none => .error .typeError
  | some u =>
      if (kwRemove kw "units").isEmpty then .ok (denseCore cfg inp u)
      else .error .typeError

/-- One `super()._build(hidden, units, **kwargs)` call inside
`DenseRectangularMetaLayer._build`: any leftover keyword argument is
rejected by the parent's `(self, input_layers, units)` signature. -/
def superDense (cfg : DenseCfg) (inp : Artifact) (units : ℚ) (rest : KwMap) :
    Except PyErr Artifact :=
  if rest.isEmpty then .ok (denseCore cfg inp units) else .error .typeError

/-- Closed form of a chain of `k` dense sub-operations (for stating the
rectangular-block theorems). -/
def denseChainN (cfg : DenseCfg) (units : ℚ) (inp : Artifact) : Nat → Artifact
  | 0 => inp
  | k + 1 => denseCore cfg (denseChainN cfg units inp k) units

/-- Body of `DenseRectangularMetaLayer._build`, additionally counting the
`super()._build` invocations (the sub-operations actually constructed):
`layers = round(layers)`; `layers == 0` returns the input untouched (no
sub-operation at all); otherwise the first sub-operation is built, the
`for _ in range(1, layers - 1)` loop stacks `max 0 (layers - 2)` more, and
a final sub-operation -- fed `Add()([first, hidden])` when residuality is
enabled -- is built only when `layers > 2`. -/
def denseRectBody (cfg : DenseCfg) (residual : Bool) (inp : Artifact)
    (units layersQ : ℚ) (rest : KwMap) : Except PyErr (Artifact × Nat) :=
  let layers := pyRound layersQ
  if layers = 0 then .ok (inp, 0)
  else if rest.isEmpty then
    let first := denseCore cfg inp units
    let hidden := (fun h => denseCore cfg h units)^[(layers - 2).toNat] first
    if layers ≤ 2 then .ok (hidden, 1 + (layers - 2).toNat)
    else
      .ok (denseCore cfg (if residual then .addA [first, hidden] else hidden)
             units,
           1 + (layers - 2).toNat + 1)
  else .error .typeError

/-- Embedding of `DenseRectangularMetaLayer._build` through keyword binding: `units` and
`layers` are required named parameters, everything else flows into
`**kwargs`; a key `input_layers` would collide with the positional argument. -/
def denseRectBuildKw (cfg : DenseCfg) (residual : Bool) (inp : Artifact)
    (kw : KwMap) : Except PyErr Artifact :=
  if kw.any (fun kv => kv.1 == "input_layers") then .error .typeError
  else
    match kwLookup kw "units", kwLookup kw "layers" with
    | some u, some l =>
        (denseRectBody cfg residual inp u l
            (kwRemove (kwRemove kw "units") "layers")).map (·.1)
    | _, _ => .error .typeError

/-- The `BatchNormalization` wrapping of `Conv1DMetaLayer._build`. -/
def bnWrapConv (cfg : ConvCfg) (a : Artifact) : Artifact :=
  if cfg.batchNorm then .batchNormA a else a

/-- Embedding of `RegularizedMetaLayer._active_regularizers`. -/
def activeRegNames (cfg : ConvCfg) : List String :=
  (if cfg.activityReg then ["activity_regularizer"] else []) ++
  (if cfg.kernelReg then ["kernel_regularizer"] else []) ++
  (if cfg.biasReg then ["bias_regularizer"] else [])

/-- The per-regularizer lookups of `RegularizedMetaLayer._build_regularizers`:
`kwargs[name]` raises `KeyError` when a required weight is missing, and a
weight close to zero is dropped from the `l1_l2` arguments. -/
def buildRegsGo (kw : KwMap) :
    List String → Except PyErr (List (String × Option ℚ × Option ℚ))
  | [] => .ok []
  | n :: tl =>
      match kwLookup kw (n ++ "_l1"), kwLookup kw (n ++ "_l2") with
      | some v1, some v2 =>
          (buildRegsGo kw tl).map (fun rest =>
            (n, (if iscloseQ v1 0 then none else some v1),
                (if iscloseQ v2 0 then none else some v2)) :: rest)
      | _, _ => .error .keyError

/-- Embedding of `RegularizedMetaLayer._build_regularizers`. -/
def buildRegularizers (cfg : ConvCfg) (kw : KwMap) :
    Except PyErr (List (String × Option ℚ × Option ℚ)) :=
  buildRegsGo kw (activeRegNames cfg)

/-- Body of `Conv1DMetaLayer._build` as invoked with `**kwargs` by the
rectangular block: `filters` and `kernel_size` are bound from the keyword
arguments (missing ones raise `TypeError`), a zero filter count returns the
input *before* the regularizers are evaluated, and otherwise a `Conv1D`
with the given strides, optional batch normalization and the activation are
stacked. -/
def convCore (cfg : ConvCfg) (kw : KwMap) (strides : ℤ) (inp : Artifact) :
    Except PyErr Artifact :=
  match kwLookup kw "filters", kwLookup kw "kernel_size" with
  | some f, some k =>
      let fi := pyInt f
      let ki := pyInt k
      if fi = 0 then .ok inp
      else
        (buildRegularizers cfg kw).map (fun regs =>
          .activationA cfg.activation
            (bnWrapConv cfg (.conv1dA fi ki strides regs inp)))
  | _, _ => .error .typeError

/-- The `for _ in range(1, layers - 1)` loop of
`Conv1DRectangularMetaLayer._build`. -/
def convLoop (cfg : ConvCfg) (kw : KwMap) (strides : ℤ) :
    Nat → Artifact → Except PyErr Artifact
  | 0, a => .ok a
  | k + 1, a =>
      match convCore cfg kw strides a with
      | .error e => .error e
      | .ok a' => convLoop cfg kw strides k a'

/-- The chain-construction part of `Conv1DRectangularMetaLayer._build`
(everything between the `layers == 0` early return and the max-pooling),
with a count of the `super()._build` invocations.  The first sub-operation
receives the sampled strides only when `layers <= 1`, loop iterations only
when `layers <= 2` (hence never, the loop being empty then), and the final
sub-operation -- built only when `layers > 2` -- always receives them. -/
def convChainPart (cfg : ConvCfg) (residual : Bool) (kw : KwMap)
    (inp : Artifact) (layers strides : ℤ) : Except PyErr (Artifact × Nat) :=
  match convCore cfg kw (if 1 < layers then 1 else strides) inp with
  | .error e => .error e
  | .ok first =>
      match convLoop cfg kw (if 2 < layers then 1 else strides)
          ((layers - 2).toNat) first with
      | .error e => .error e
      | .ok hidden =>
          if layers ≤ 2 then .ok (hidden, 1 + (layers - 2).toNat)
          else
            (convCore cfg kw strides
                (if residual then .addA [first, hidden] else hidden)).map
              (fun last => (last, 1 + (layers - 2).toNat + 1))

/-- Body of `MaxPool1DMetaLayer._build`: a zero pool size skips the layer. -/
def maxpoolCore (pool : ℤ) (inp : Artifact) : Artifact :=
  if pool = 0 then inp else .maxpoolA pool inp

/-- The final statement of `Conv1DRectangularMetaLayer._build` evaluates
`self._dropout._build(...)`, but `self._dropout` is the *boolean* dropout
flag assigned by `RegularizedMetaLayer.__init__` (never a layer object), and
a Python `bool` has no `_build` attribute: the attribute lookup raises
`AttributeError`. -/
def boolDropoutBuild (_flag : Bool) (_dropoutRate : ℚ) (_inp : Artifact) :
    Except PyErr Artifact :=
  .error .attributeError

/-- Body of `Conv1DRectangularMetaLayer._build`: round the sampled
`layers`, `strides` and `pool_size`; `layers == 0` returns the input
unchanged; otherwise build the chain, apply the nested max-pooling layer's
`_build`, and end in the `self._dropout._build` attribute error. -/
def conv1dRectBody (cfg : ConvCfg) (residual : Bool) (inp : Artifact)
    (layersQ stridesQ poolQ dropoutRate : ℚ) (kw : KwMap) :
    Except PyErr (Artifact × Nat) :=
  let layers := pyRound layersQ
  let strides := pyRound stridesQ
  let pool := pyRound poolQ
  if layers = 0 then .ok (inp, 0)
  else
    match convChainPart cfg residual kw inp layers strides with
    | .error e => .error e
    | .ok (last, c) =>
        (boolDropoutBuild cfg.dropout dropoutRate (maxpoolCore pool last)).map
          (fun a => (a, c))

/-- Embedding of `Conv1DRectangularMetaLayer._build` through keyword binding: `layers`,
`strides`, `pool_size` and `dropout_rate` are required named parameters;
`filters`, `kernel_size` and the regularizer weights travel in `**kwargs`. -/
def conv1dRectBuildKw (cfg : ConvCfg) (residual : Bool) (inp : Artifact)
    (kw : KwMap) : Except PyErr Artifact :=
  if kw.any (fun kv => kv.1 == "input_layers") then .error .typeError
  else
    match kwLookup kw "layers", kwLookup kw "strides",
        kwLookup kw "pool_size", kwLookup kw "dropout_rate" with
    | some l, some s, some p, some d =>
        (conv1dRectBody cfg residual inp l s p d
            (kwRemove (kwRemove (kwRemove (kwRemove kw "layers") "strides")
              "pool_size") "dropout_rate")).map (·.1)
    | _, _, _, _ => .error .typeError

/-- Embedding of `MaxPool1DMetaLayer._build` through keyword binding (`pool_size`
required, `**kwargs` absorbs the rest). -/
def maxpoolBuildKw (inp : Artifact) (kw : KwMap) : Except PyErr Artifact :=
  if kw.any (fun kv => kv.1 == "input_layers") then .error .typeError
  else
    match kwLookup kw "pool_size" with
    | none => .error .typeError
    | some p => .ok (maxpoolCore (pyRound p) inp)

/-- Embedding of `DropoutMetaLayer._build`: a rate close to zero skips the layer. -/
def dropoutBuildKw (inp : Artifact) (kw : KwMap) : Except PyErr Artifact :=
  if kw.any (fun kv => kv.1 == "input_layers") then .error .typeError
  else
    match kwLookup kw "dropout_rate" with
    | none => .error .typeError
    | some r =>
        .ok (if iscloseQ r 0 then inp else .dropoutA r inp)

/-- Dispatch a node's `_build` given the predecessor artifact(s) and its
filtered keyword arguments.  `InputMetaLayer._build` ignores everything and
returns a fresh `Input`; `ConcatenateMetaLayer._build` evaluates
`Concatenate()([input_layers])` -- note the singleton list wrapping its
(possibly already list-shaped) input, exactly as in the source. -/
def runBuild (kind : NodeKind) (inp : Artifact) (kw : KwMap) :
    Except PyErr Artifact :=
  match kind with
  | .inputK shape name => .ok (.inputA shape name)
  | .denseK cfg => denseBuildKw cfg inp kw
  | .denseRectK cfg _ _ residual => denseRectBuildKw cfg residual inp kw
  | .conv1dRectK cfg _ _ _ _ _ _ residual =>
      conv1dRectBuildKw cfg residual inp kw
  | .maxpoolK _ _ => maxpoolBuildKw inp kw
  | .dropoutK _ _ => dropoutBuildKw inp kw
  | .concatK => .ok (.concatA [inp])

/-! ## The engine: rendering, lazy memoized build, reset -/

/-- Pointwise update of a state table. -/
def updF {α : Type} (f : Nat → α) (i : Nat) (v : α) : Nat → α :=
  fun j => if j = i then v else f j

/-- The mutable per-node attributes of all meta-layer instances, plus the
build-count / received-kwargs instrumentation. -/
structure EngSt where
  renderedSpace : Nat → Option SpaceMap
  renderedDefaults : Nat → Option KwMap
  builtLayer : Nat → Option Artifact
  buildCount : Nat → Nat
  receivedKw : Nat → Option KwMap

/-- The state right after construction: every `_rendered_space`,
`_rendered_defaults` and `_layer` is `None`. -/
def initSt : EngSt :=
  { renderedSpace := fun _ => none
    renderedDefaults := fun _ => none
    builtLayer := fun _ => none
    buildCount := fun _ => 0
    receivedKw := fun _ => none }

/-- The default-collapse destructuring of `MetaLayer.space`:
`{key: first for key, (first, second) in layer_space.items()
if np.isclose(first, second)}`.  Unpacking a three-element declaration into
`(first, second)` raises `ValueError: too many values to unpack`. -/
def renderDefaults : SpaceMap → Except PyErr KwMap
  | [] => .ok []
  | (k, .pair lo hi) :: tl =>
      (renderDefaults tl).map (fun rest =>
        if iscloseQ lo hi then (k, lo) :: rest else rest)
  | (_, .triple _ _ _) :: _ => .error .valueError

/-- Embedding of `MetaLayer._filter_relevant_kwargs`: keep the entries whose key
*starts with* `layer_prefix` (note: not `layer_prefix + separator`!) and
strip `len(layer_prefix) + len(separator)` characters. -/
def filterRelevantKwargs (pfxT sep : String) (kwargs : KwMap) : KwMap :=
  kwargs.filterMap (fun kv =>
    if strStartsWith kv.1 pfxT then
      some (strDrop kv.1 (strLen pfxT + strLen sep), kv.2)
    else none)

/-- The double-splat merge `f(**kwargs, **defaults)` of a Python call:
a key occurring in both raises `TypeError: got multiple values`. -/
def mergeKw (a b : KwMap) : Except PyErr KwMap :=
  if b.any (fun kv => a.any (fun kv2 => kv2.1 == kv.1)) then .error .typeError
  else .ok (a ++ b)

/-- The three-way shape rule of `MetaLayer._build_previous`: zero
predecessors yield `None`, one yields the bare artifact, several a list. -/
def prevShape : List Artifact → Artifact
  | [] => .noneA
  | [a] => a
  | xs => .listA xs

/-- Embedding of `MetaLayer.space()` on the node at arena index `i`: return the cached
`_rendered_space` when set; otherwise prefix the local declarations,
recursively render every predecessor (in order, stopping at the first
exception), split the local declarations into collapsed defaults (`low`
is-close `high`) and exposed ranges, cache, and return the merged exposed
space.  Recursion is fuelled so that the definition computes by kernel
reduction; any fuel at least the number of nodes is enough. -/
def spaceAt : Nat → Graph → Nat → EngSt → EngSt × Except PyErr SpaceMap
  | 0, _, _, st => (st, .error .fuelOut)
  | fuel + 1, g, i, st =>
    match g[i]? with
    | none => (st, .error .indexError)
    | some nd =>
      match st.renderedSpace i with
      | some m => (st, .ok m)
      | none =>
        match localSpaceOf nd.kind with
        | .error e => (st, .error e)
        | .ok ls =>
          let layerSpace := ls.map (fun kv => (nd.nsKey kv.1, kv.2))
          let predRes := nd.preds.foldl
            (fun (acc : EngSt × Except PyErr (List SpaceMap)) j =>
              match acc with
              | (st1, .error e) => (st1, .error e)
              | (st1, .ok ms) =>
                match spaceAt fuel g j st1 with
                | (st2, .error e) => (st2, .error e)
                | (st2, .ok m) => (st2, .ok (ms ++ [m])))
            (st, .ok [])
          match predRes with
          | (st1, .error e) => (st1, .error e)
          | (st1, .ok predMaps) =>
            match renderDefaults layerSpace with
            | .error e => (st1, .error e)
            | .ok defs =>
              let full := chainIter (predMaps ++ [layerSpace])
              let rendered := full.filter (fun kv =>
                !(defs.any (fun d => d.1 == kv.1)))
              ({ st1 with
                  renderedDefaults := updF st1.renderedDefaults i (some defs)
                  renderedSpace := updF st1.renderedSpace i (some rendered) },
               .ok rendered)

/-- Embedding of `[layer.space() for layer in self._input_layers]` at top level (used by
the meta-model over its output nodes). -/
def spaceList (fuel : Nat) (g : Graph) (is : List Nat) (st : EngSt) :
    EngSt × Except PyErr (List SpaceMap) :=
  is.foldl
    (fun acc j =>
      match acc with
      | (st1, .error e) => (st1, .error e)
      | (st1, .ok ms) =>
        match spaceAt fuel g j st1 with
        | (st2, .error e) => (st2, .error e)
        | (st2, .ok m) => (st2, .ok (ms ++ [m])))
    (st, .ok [])

/-- Embedding of `MetaLayer.build(**kwargs)` on the node at arena index `i`: return the
cached `_layer` if set; otherwise build the predecessors, merge the
assignment with `_rendered_defaults` (still `None` before any `space()`
call reaches this node -- splatting `None` raises `TypeError`), filter the
merged mapping down to this node's namespace, invoke `_build`, and cache
the result (Python caches by assigning `self._layer`, so a `None` result
stays "unbuilt").  The `buildCount`/`receivedKw` instrumentation records
every `_build` invocation. -/
def buildAt : Nat → Graph → KwMap → Nat → EngSt → EngSt × Except PyErr Artifact
  | 0, _, _, _, st => (st, .error .fuelOut)
  | fuel + 1, g, kwargs, i, st =>
    match st.builtLayer i with
    | some a => (st, .ok a)
    | none =>
      match g[i]? with
      | none => (st, .error .indexError)
      | some nd =>
        let predRes := nd.preds.foldl
          (fun (acc : EngSt × Except PyErr (List Artifact)) j =>
            match acc with
            | (st1, .error e) => (st1, .error e)
            | (st1, .ok arts) =>
              match buildAt fuel g kwargs j st1 with
              | (st2, .error e) => (st2, .error e)
              | (st2, .ok a) => (st2, .ok (arts ++ [a])))
          (st, .ok [])
        match predRes with
        | (st1, .error e) => (st1, .error e)
        | (st1, .ok arts) =>
          match st1.renderedDefaults i with
          | none => (st1, .error .typeError)
          | some defs =>
            match mergeKw kwargs defs with
            | .error e => (st1, .error e)
            | .ok merged =>
              let localKw := filterRelevantKwargs nd.layerPfx nd.sep merged
              let st2 := { st1 with
                buildCount := updF st1.buildCount i (st1.buildCount i + 1)
                receivedKw := updF st1.receivedKw i (some localKw) }
              match runBuild nd.kind (prevShape arts) localKw with
              | .error e => (st2, .error e)
              | .ok a =>
                  let cached := if a.isNone then none else some a
                  ({ st2 with builtLayer := updF st2.builtLayer i cached },
                   .ok a)

/-- Embedding of `[layer.build(**kwargs) for layer in layers]` at top level. -/
def buildList (fuel : Nat) (g : Graph) (kwargs : KwMap) (is : List Nat)
    (st : EngSt) : EngSt × Except PyErr (List Artifact) :=
  is.foldl
    (fun acc j =>
      match acc with
      | (st1, .error e) => (st1, .error e)
      | (st1, .ok arts) =>
        match buildAt fuel g kwargs j st1 with
        | (st2, .error e) => (st2, .error e)
        | (st2, .ok a) => (st2, .ok (arts ++ [a])))
    (st, .ok [])

/-- Embedding of `MetaLayer.reset()`: recursively clear `_layer` on the predecessors,
then on this node. -/
def resetAt : Nat → Graph → Nat → EngSt → EngSt × Except PyErr Unit
  | 0, _, _, st => (st, .error .fuelOut)
  | fuel + 1, g, i, st =>
    match g[i]? with
    | none => (st, .error .indexError)
    | some nd =>
      let predRes := nd.preds.foldl
        (fun (acc : EngSt × Except PyErr Unit) j =>
          match acc with
          | (st1, .error e) => (st1, .error e)
          | (st1, .ok _) => resetAt fuel g j st1)
        (st, .ok ())
      match predRes with
      | (st1, .error e) => (st1, .error e)
      | (st1, .ok _) =>
          ({ st1 with builtLayer := updF st1.builtLayer i none }, .ok ())

/-- Reset a list of nodes in order. -/
def resetList (fuel : Nat) (g : Graph) (is : List Nat) (st : EngSt) :
    EngSt × Except PyErr Unit :=
  is.foldl
    (fun acc j =>
      match acc with
      | (st1, .error e) => (st1, .error e)
      | (st1, .ok _) => resetAt fuel g j st1)
    (st, .ok ())

/-! ## The meta-model (graph assembler) -/

/-- A `MetaModel` after `structure()` ran: the arena, the input and output
node indices, and the model-level `_space()` override (empty for the
shipped models, e.g. `FFNNMetaModel._space`). -/
structure MModel where
  g : Graph
  inputs : List Nat
  outputs : List Nat
  ownSpace : SpaceMap

/-- Embedding of `MetaModel.space()`: set `_rendered = True`, then
`dict(ChainMap(*[layer.space() for layer in self._outputs], self._space()))`. -/
def modelSpace (fuel : Nat) (m : MModel) (st : EngSt) :
    Bool × EngSt × Except PyErr SpaceMap :=
  match spaceList fuel m.g m.outputs st with
  | (st1, .error e) => (true, st1, .error e)
  | (st1, .ok maps) => (true, st1, .ok (chainIter (maps ++ [m.ownSpace])))

/-- Embedding of `MetaModel.build(**kwargs)`: render the space first when `_rendered` is
still false; build every input node, then every output node, with the
assignment; assemble the `Model` from the built handles; and only then
reset all output nodes' subgraphs. -/
def modelBuild (fuel : Nat) (m : MModel) (rendered : Bool) (st : EngSt)
    (kwargs : KwMap) :
    Bool × EngSt × Except PyErr (List Artifact × List Artifact) :=
  let (rendered1, st1, spaceRes) :=
    if rendered then (rendered, st, .ok [])
    else modelSpace fuel m st
  match spaceRes with
  | .error e => (rendered1, st1, .error e)
  | .ok _ =>
    match buildList fuel m.g kwargs m.inputs st1 with
    | (st2, .error e) => (rendered1, st2, .error e)
    | (st2, .ok inArts) =>
      match buildList fuel m.g kwargs m.outputs st2 with
      | (st3, .error e) => (rendered1, st3, .error e)
      | (st3, .ok outArts) =>
        match resetList fuel m.g m.outputs st3 with
        | (st4, .error e) => (rendered1, st4, .error e)
        | (st4, .ok _) => (rendered1, st4, .ok (inArts, outArts))

/-! ## Concrete scenarios (graphs as a client would construct them) -/

/-- A `DenseMetaLayer` configuration with the constructor's default
arguments apart from the unit bounds. -/
def denseCfgStd (minU maxU : ℚ) : DenseCfg :=
  { minUnits := minU, maxUnits := maxU, activation := "relu",
    minL1 := 0, maxL1 := 1 / 100, minL2 := 0, maxL2 := 1 / 100,
    batchNorm := false, activityReg := false, kernelReg := false,
    biasReg := false }

/-- The configuration `HeadMetaLayer.__init__` hands to
`DenseMetaLayer.__init__`: `min_units = max_units = units` and a sigmoid
activation. -/
def headDenseCfg (u : ℚ) : DenseCfg :=
  { denseCfgStd u u with activation := "sigmoid" }

/-- A diamond topology: one input node feeding two `DenseMetaLayer`
instances (ids 0 and 1) that both feed one `ConcatenateMetaLayer`. -/
def gDiamond : Graph :=
  [ { typeName := "InputMetaLayer", sep := "_", id := 0, preds := [],
      kind := .inputK [4] none },
    { typeName := "DenseMetaLayer", sep := "_", id := 0, preds := [0],
      kind := .denseK (denseCfgStd 0 16) },
    { typeName := "DenseMetaLayer", sep := "_", id := 1, preds := [0],
      kind := .denseK (denseCfgStd 0 16) },
    { typeName := "ConcatenateMetaLayer", sep := "_", id := 0,
      preds := [1, 2], kind := .concatK } ]

/-- The state of the diamond graph after `space()` was rendered on its
terminal node. -/
def stDiamond : EngSt := (spaceAt 10 gDiamond 3 initSt).1

/-- A sampled assignment for the diamond graph. -/
def kwDiamond : KwMap :=
  [("DenseMetaLayer_0_units", 3), ("DenseMetaLayer_1_units", 5)]

/-- An input node feeding a `HeadMetaLayer` whose single parameter has
coinciding bounds (`min_units == max_units == u`). -/
def gHead (u : ℚ) : Graph :=
  [ { typeName := "InputMetaLayer", sep := "_", id := 0, preds := [],
      kind := .inputK [8] none },
    { typeName := "HeadMetaLayer", sep := "_", id := 0, preds := [0],
      kind := .denseK (headDenseCfg u) } ]

/-- The `FFNNMetaModel`-style scenario: an input node, one
`DenseRectangularMetaLayer` block and a `HeadMetaLayer`. -/
def gFF : Graph :=
  [ { typeName := "InputMetaLayer", sep := "_", id := 0, preds := [],
      kind := .inputK [8] none },
    { typeName := "DenseRectangularMetaLayer", sep := "_", id := 0,
      preds := [0], kind := .denseRectK (denseCfgStd 0 16) 0 5 false },
    { typeName := "HeadMetaLayer", sep := "_", id := 0, preds := [1],
      kind := .denseK (headDenseCfg 1) } ]

/-- The graph assembler owning `gFF` (cf. `FFNNMetaModel`, whose `_space`
returns `{}`). -/
def mFF : MModel := { g := gFF, inputs := [0], outputs := [2], ownSpace := [] }

/-- An assignment for the `gFF` scenario with the given sampled `units` and
`layers` values of the rectangular block. -/
def kwFF (u l : ℚ) : KwMap :=
  [("DenseRectangularMetaLayer_0_units", u),
   ("DenseRectangularMetaLayer_0_layers", l)]

/-- The artifact a `gFF` build is expected to produce for sampled `units`
and `layers`: the rectangular block's closed form fed into the head's
single-unit sigmoid dense layer. -/
def denseRectArt (cfg : DenseCfg) (residual : Bool) (inp : Artifact)
    (units layersQ : ℚ) : Artifact :=
  let layers := pyRound layersQ
  if layers = 0 then inp
  else
    let first := denseCore cfg inp units
    let hidden := (fun h => denseCore cfg h units)^[(layers - 2).toNat] first
    if layers ≤ 2 then hidden
    else denseCore cfg (if residual then .addA [first, hidden] else hidden)
      units

/-- Expected `gFF` output artifact for a sampled assignment. -/
def ffExpected (u l : ℚ) : Artifact :=
  denseCore (headDenseCfg 1)
    (denseRectArt (denseCfgStd 0 16) false (.inputA [8] none) u l) 1

/-- Modelled from the claim's wording, for comparison with the code's
`_filter_relevant_kwargs`: exactly the assignment entries whose key is the
namespace prefix followed by the separator and a local parameter name, with
that whole namespace prefix stripped. -/
def specNamespacedKwargs (pfxT sep : String) (kwargs : KwMap) : KwMap :=
  kwargs.filterMap (fun kv =>
    if strStartsWith kv.1 (pfxT ++ sep) then
      some (strDrop kv.1 (strLen (pfxT ++ sep)), kv.2)
    else none)

/-- The artifact the diamond terminal node builds: one shared `Input`
handle reaches the concatenation through both dense branches. -/
def diamondArt : Artifact :=
  .concatA [.listA
    [.activationA "relu" (.denseA 3 (.inputA [4] none)),
     .activationA "relu" (.denseA 5 (.inputA [4] none))]]

/-- A state whose node 0 already carries a cached artifact, witnessing the
memoization hypothesis. -/
def stCachedW : EngSt :=
  { initSt with builtLayer := updF initSt.builtLayer 0 (some (.inputA [4] none)) }

/-- A concrete assignment for the C8 witness: filters 3, kernel size 2, no
active regularizers. -/
def kwConvW : KwMap := [("filters", 3), ("kernel_size", 2)]

/-- A default-flag conv configuration for the C8 witness. -/
def convCfgW : ConvCfg :=
  { minFilters := 0, maxFilters := 256, minKernel := 1, maxKernel := 12,
    activation := "relu", minL1 := 0, maxL1 := 1 / 100, minL2 := 0,
    maxL2 := 1 / 100, minDropoutRate := 0, maxDropoutRate := 1 / 2,
    batchNorm := false, activityReg := false, kernelReg := false,
    biasReg := false, dropout := false }

/-- The artifact one conv sub-operation produces (given the bound `filters`
and `kernel_size` values and the built regularizers). -/
def convArt (cfg : ConvCfg) (fv kv : ℚ)
    (regs : List (String × Option ℚ × Option ℚ)) (s : ℤ) (inp : Artifact) :
    Artifact :=
  if pyInt fv = 0 then inp
  else .activationA cfg.activation
    (bnWrapConv cfg (.conv1dA (pyInt fv) (pyInt kv) s regs inp))

/-- A chain of `k` stride-1 conv sub-operations. -/
def convChainN (cfg : ConvCfg) (fv kv : ℚ)
    (regs : List (String × Option ℚ × Option ℚ)) (inp : Artifact) :
    Nat → Artifact
  | 0 => inp
  | k + 1 => convArt cfg fv kv regs 1 (convChainN cfg fv kv regs inp k)

/-- The `gFF` assignment used for the concrete C10 and C5 runs. -/
def kwFFa : KwMap := kwFF 3 2

/-- The artifact the `gFF` head builds under `kwFFa`. -/
def ffArtA : Artifact :=
  .activationA "sigmoid" (.denseA 1
    (.activationA "relu" (.denseA 3 (.inputA [8] none))))

/-! ## Basic reduction lemmas -/

theorem updF_same {α : Type} (f : Nat → α) (i : Nat) (v : α) :
    updF f i v i = v := by
  simp [updF]

theorem updF_ne {α : Type} (f : Nat → α) (i j : Nat) (v : α) (h : j ≠ i) :
    updF f i v j = f j := by
  simp [updF, h]

/-- Bridge from `List.isPrefixOf` to the prefix order. -/
theorem isPrefixOf_iff {l₁ l₂ : List Char} :
    l₁.isPrefixOf l₂ = true ↔ l₁ <+: l₂ := List.isPrefixOf_iff_prefix

/-- A string starts with itself followed by anything. -/
theorem strStartsWith_append (p r : String) :
    strStartsWith (p ++ r) p = true := by
  rw [strStartsWith, isPrefixOf_iff, String.data_append]
  exact List.prefix_append _ _

/-- Dropping the combined length of `p` and `s` from `p ++ s ++ loc`
recovers `loc`. -/
theorem strDrop_append (p s loc : String) :
    strDrop (p ++ s ++ loc) (strLen p + strLen s) = loc := by
  have h : (p ++ s ++ loc).data = (p.data ++ s.data) ++ loc.data := by
    rw [String.data_append, String.data_append]
  have hl : strLen p + strLen s = (p.data ++ s.data).length := by
    simp [strLen]
  rw [strDrop, h, hl, List.drop_left]

/-- Self-closeness: `np.isclose(u, u)` always holds. -/
theorem iscloseQ_self (u : ℚ) : iscloseQ u u = true := by
  simp only [iscloseQ, sub_self, abs_zero, decide_eq_true_eq]
  positivity

/-- Casting a natural number to `ℚ` and rounding gives it back. -/
theorem pyRound_natCast (n : ℕ) : pyRound (n : ℚ) = n := by
  simp [pyRound]

/-- Casting a natural number to `ℚ` and truncating gives it back. -/
theorem pyInt_natCast (n : ℕ) : pyInt (n : ℚ) = n := by
  simp [pyInt, Rat.num_natCast, Rat.den_natCast, Int.tdiv]

/-- A prefix test against a longer pattern implies one against its first
part. -/
theorem strStartsWith_of_append (k p s : String)
    (h : strStartsWith k (p ++ s) = true) : strStartsWith k p = true := by
  rw [strStartsWith, isPrefixOf_iff] at h ⊢
  rw [String.data_append] at h
  exact List.IsPrefix.trans (List.prefix_append _ _) h

/-- Code-point length distributes over append. -/
theorem strLen_append (p s : String) :
    strLen (p ++ s) = strLen p + strLen s := by
  simp [strLen, String.data_append]

/-- C3, counterexample: namespace keys are *not* exact-match filtered.  A
`DenseMetaLayer` instance with id 1 filters an assignment that only
contains the key of the *distinct* instance with id 10 -- `startswith`
matches `DenseMetaLayer_1` against `DenseMetaLayer_10_units`, so the
foreign entry is picked up (under the mangled local name `_units`), whereas
the claim's exact-namespace extraction returns nothing. -/
theorem filter_includes_foreign_namespace_cex :
    filterRelevantKwargs "DenseMetaLayer_1" "_"
        [("DenseMetaLayer_10_units", 7)] = [("_units", 7)]
    ∧ specNamespacedKwargs "DenseMetaLayer_1" "_"
        [("DenseMetaLayer_10_units", 7)] = []
    ∧ ("_units", (7 : ℚ)) ∈ filterRelevantKwargs "DenseMetaLayer_1" "_"
        [("DenseMetaLayer_10_units", 7)] := by
  refine ⟨by with_unfolding_all rfl, by with_unfolding_all rfl, ?_⟩
  have h : filterRelevantKwargs "DenseMetaLayer_1" "_"
      [("DenseMetaLayer_10_units", 7)] = [("_units", 7)] := by
    with_unfolding_all rfl
  rw [h]
  exact List.mem_singleton.mpr rfl

/-- C3, amended: the kwargs a node's build filters out of an assignment are
exactly the claim's own-namespace entries *provided* no key in the
assignment extends the node's prefix other than through the separator
(violated e.g. by instance ids 1 vs 10 of the same type). -/
theorem filter_exact_without_id_extension
    (pfxT sep : String) (kwargs : KwMap)
    (h : ∀ kv ∈ kwargs, strStartsWith kv.1 pfxT = true →
         ∃ loc, kv.1 = pfxT ++ sep ++ loc) :
    filterRelevantKwargs pfxT sep kwargs =
      specNamespacedKwargs pfxT sep kwargs := by
  induction kwargs with
  | nil => rfl
  | cons kv tl ih =>
    have ihtl := ih (fun kv hm hs => h kv (List.mem_cons_of_mem _ hm) hs)
    rcases hsw : strStartsWith kv.1 pfxT with _ | _
    · have hsw2 : strStartsWith kv.1 (pfxT ++ sep) = false := by
        rcases hx : strStartsWith kv.1 (pfxT ++ sep) with _ | _
        · rfl
        · exact absurd (strStartsWith_of_append _ _ _ hx) (by simp [hsw])
      simp [filterRelevantKwargs, specNamespacedKwargs, List.filterMap_cons,
        hsw, hsw2] at ihtl ⊢
      exact ihtl
    · obtain ⟨loc, hloc⟩ := h kv (List.mem_cons_self _ _) hsw
      have hsw2 : strStartsWith kv.1 (pfxT ++ sep) = true := by
        rw [hloc]
        exact strStartsWith_append _ _
      have hdropL : strDrop kv.1 (strLen pfxT + strLen sep) = loc := by
        rw [hloc]; exact strDrop_append _ _ _
      have hdropR : strDrop kv.1 (strLen (pfxT ++ sep)) = loc := by
        rw [strLen_append, hdropL]
      simp [filterRelevantKwargs, specNamespacedKwargs, List.filterMap_cons,
        hsw, hsw2, hdropL, hdropR] at ihtl ⊢
      exact ihtl

/-- Witness for the amended C3 theorem at a concrete well-behaved
assignment. -/
theorem filter_exact_without_id_extension_witness :
    filterRelevantKwargs "DenseMetaLayer_0" "_"
        [("DenseMetaLayer_0_units", 5), ("HeadMetaLayer_0_units", 1)] =
      specNamespacedKwargs "DenseMetaLayer_0" "_"
        [("DenseMetaLayer_0_units", 5), ("HeadMetaLayer_0_units", 1)] := by
  refine filter_exact_without_id_extension _ _ _ ?_
  intro kv hm hs
  rcases List.mem_cons.mp hm with h1 | h2
  · exact ⟨"units", by rw [h1]; with_unfolding_all rfl⟩
  · rcases List.mem_singleton.mp h2 with h2
    rw [h2] at hs
    exact absurd hs (by with_unfolding_all exact fun h => nomatch h)

/-- C7: after an explicit `reset_counter()`, constructing the same topology
(the same sequence of class instantiations) yields identical layer
prefixes -- and hence identical fully-namespaced parameter keys and
`space()` key sets -- whatever counter state each run started from. -/
theorem namespace_keys_deterministic_after_reset
    (names : List String) (sep : String) (s1 s2 : Counters)
    (localNames : List String) :
    runPfxs names sep s1 = runPfxs names sep s2
    ∧ (runPfxs names sep s1).map
        (fun p => localNames.map (fun loc => p ++ sep ++ loc)) =
      (runPfxs names sep s2).map
        (fun p => localNames.map (fun loc => p ++ sep ++ loc)) :=
  ⟨rfl, rfl⟩

/-- C6 (code bug): the `units` declaration that a default-configured
`DenseMetaLayer`'s `space()` exposes is the bare bounds pair `(0, 512)`
with no distribution kind, although the spec -- and the repository's own
test helper `random_space_sampling`, which destructures every exposed
value as `(_, low, high)` -- require a `(distribution_kind, low, high)`
triple. -/
theorem dense_space_value_lacks_distribution_kind :
    (spaceAt 1 [⟨"DenseMetaLayer", "_", 0, [], .denseK (denseCfgStd 0 512)⟩]
        0 initSt).2 = .ok [("DenseMetaLayer_0_units", .pair 0 512)]
    ∧ Decl.hasKind (.pair 0 512) = false := by
  exact ⟨by with_unfolding_all rfl, rfl⟩

/-- A cache hit in `MetaLayer.build`: when `_layer` is already set, the
cached artifact is returned and nothing at all is recomputed or mutated. -/
theorem buildAt_cached_of (fuel : Nat) (g : Graph) (kwargs : KwMap)
    (i : Nat) (st : EngSt) (a : Artifact) (h : st.builtLayer i = some a) :
    buildAt (fuel + 1) g kwargs i st = (st, .ok a) := by
  simp [buildAt, h]

/-- C1: `build` is memoized per epoch -- with `_layer` cached, `build`
returns it untouched without recomputation -- and in the rendered diamond
graph the terminal `build` constructs the shared ancestor's artifact
exactly once (`buildCount = 1`), the same `Input` handle reaching the
concatenation through both branches; re-invoking `build` on the already
built terminal node returns the cached artifact with the state unchanged. -/
theorem build_memoized_and_diamond_built_once
    (fuel : Nat) (g : Graph) (kwargs : KwMap) (i : Nat) (st : EngSt)
    (a : Artifact) (h : st.builtLayer i = some a) :
    buildAt (fuel + 1) g kwargs i st = (st, .ok a)
    ∧ (buildAt 10 gDiamond kwDiamond 3 stDiamond).1.buildCount 0 = 1
    ∧ (buildAt 10 gDiamond kwDiamond 3 stDiamond).2 = .ok diamondArt
    ∧ (buildAt 10 gDiamond kwDiamond 3 stDiamond).1.builtLayer 0 =
        some (.inputA [4] none)
    ∧ buildAt 10 gDiamond kwDiamond 3
        (buildAt 10 gDiamond kwDiamond 3 stDiamond).1 =
        ((buildAt 10 gDiamond kwDiamond 3 stDiamond).1, .ok diamondArt) :=
  ⟨buildAt_cached_of fuel g kwargs i st a h,
   by with_unfolding_all rfl,
   by with_unfolding_all rfl,
   by with_unfolding_all rfl,
   by with_unfolding_all rfl⟩

/-- Witness for C1 at a concrete cached state. -/
theorem build_memoized_and_diamond_built_once_witness :
    buildAt (0 + 1) gDiamond [] 0 stCachedW =
        (stCachedW, .ok (.inputA [4] none))
    ∧ (buildAt 10 gDiamond kwDiamond 3 stDiamond).1.buildCount 0 = 1
    ∧ (buildAt 10 gDiamond kwDiamond 3 stDiamond).2 = .ok diamondArt
    ∧ (buildAt 10 gDiamond kwDiamond 3 stDiamond).1.builtLayer 0 =
        some (.inputA [4] none)
    ∧ buildAt 10 gDiamond kwDiamond 3
        (buildAt 10 gDiamond kwDiamond 3 stDiamond).1 =
        ((buildAt 10 gDiamond kwDiamond 3 stDiamond).1, .ok diamondArt) :=
  build_memoized_and_diamond_built_once 0 gDiamond [] 0 stCachedW
    (.inputA [4] none) rfl

/-- Entries of a dict after one insert come from the dict or are the
inserted pair. -/
theorem dictInsert_mem (d : SpaceMap) (k : String) (v : Decl) :
    ∀ kv ∈ dictInsert d k v, kv ∈ d ∨ kv = (k, v) := by
  intro kv hm
  rw [dictInsert] at hm
  by_cases hc : d.any (fun kv => kv.1 == k) = true
  · rw [if_pos hc] at hm
    obtain ⟨kv0, hkv0, heq⟩ := List.mem_map.mp hm
    by_cases h0 : kv0.1 == k
    · right
      rw [if_pos h0] at heq
      exact heq.symm
    · left
      rw [if_neg h0] at heq
      exact heq ▸ hkv0
  · rw [if_neg hc] at hm
    rcases List.mem_append.mp hm with h1 | h2
    · exact Or.inl h1
    · exact Or.inr (List.mem_singleton.mp h2)

/-- Entries after a dict update come from either side. -/
theorem dictUpdate_mem (m : SpaceMap) :
    ∀ (d : SpaceMap), ∀ kv ∈ dictUpdate d m, kv ∈ d ∨ kv ∈ m := by
  induction m with
  | nil => intro d kv hm; exact Or.inl hm
  | cons x tl ih =>
    intro d kv hm
    rw [dictUpdate, List.foldl_cons] at hm
    rcases ih (dictInsert d x.1 x.2) kv hm with h1 | h2
    · rcases dictInsert_mem _ _ _ _ h1 with h3 | h4
      · exact Or.inl h3
      · refine Or.inr ?_
        rw [h4]
        simp
    · exact Or.inr (List.mem_cons_of_mem _ h2)

/-- Entries of an iterated chain map come from one of its maps. -/
theorem chainIter_mem (maps : List SpaceMap) :
    ∀ kv ∈ chainIter maps, ∃ m ∈ maps, kv ∈ m := by
  have gen : ∀ (l : List SpaceMap) (acc : SpaceMap),
      ∀ kv ∈ l.foldl dictUpdate acc, kv ∈ acc ∨ ∃ m ∈ l, kv ∈ m := by
    intro l
    induction l with
    | nil => intro acc kv hm; exact Or.inl hm
    | cons x tl ih =>
      intro acc kv hm
      rw [List.foldl_cons] at hm
      rcases ih (dictUpdate acc x) kv hm with h1 | ⟨m, hm1, hm2⟩
      · rcases dictUpdate_mem _ _ _ h1 with h3 | h4
        · exact Or.inl h3
        · exact Or.inr ⟨x, List.mem_cons_self _ _, h4⟩
      · exact Or.inr ⟨m, List.mem_cons_of_mem _ hm1, hm2⟩
  intro kv hm
  rcases gen maps.reverse [] kv hm with h | ⟨m, hm1, hm2⟩
  · exact absurd h (List.not_mem_nil kv)
  · exact ⟨m, List.mem_reverse.mp hm1, hm2⟩

/-- The two entries an enabled regularizer contributes are bounds pairs. -/
theorem pairsOfRegIte (cfg : ConvCfg) (name : String) (flag : Bool) :
    ∀ m ∈ (if flag then [regEntries cfg name] else []),
      ∀ kv ∈ m, kv.2.hasKind = false := by
  cases flag
  · intro m hm
    simp at hm
  · intro m hm kv hkv
    simp at hm
    subst hm
    simp [regEntries] at hkv
    rcases hkv with h | h <;> simp [h, Decl.hasKind]

/-- Every map fed to the `ChainMap` of `RegularizedMetaLayer._space`
contains only untagged bounds pairs. -/
theorem regMaps_pairs (cfg : ConvCfg) :
    ∀ m ∈ regMaps cfg, ∀ kv ∈ m, kv.2.hasKind = false := by
  intro m hm kv hkv
  rw [regMaps] at hm
  rcases List.mem_append.mp hm with h | h
  · rcases List.mem_append.mp h with h1 | h1
    · rcases List.mem_append.mp h1 with h2 | h2
      · exact pairsOfRegIte cfg "activity_regularizer" cfg.activityReg m h2 kv hkv
      · exact pairsOfRegIte cfg "kernel_regularizer" cfg.kernelReg m h2 kv hkv
    · exact pairsOfRegIte cfg "bias_regularizer" cfg.biasReg m h1 kv hkv
  · rcases List.mem_singleton.mp h with rfl
    cases hd : cfg.dropout
    · rw [hd] at hkv
      simp at hkv
    · rw [hd] at hkv
      simp at hkv
      simp [hkv, Decl.hasKind]

/-- Every declaration of `RegularizedMetaLayer._space` is an untagged
bounds pair. -/
theorem regularizedLocalSpace_pairs (cfg : ConvCfg) :
    ∀ kv ∈ regularizedLocalSpace cfg, kv.2.hasKind = false := by
  intro kv hm
  obtain ⟨m, hm1, hm2⟩ := chainIter_mem _ kv hm
  exact regMaps_pairs cfg m hm1 kv hm2

/-- Every declaration of `Conv1DMetaLayer._space` is an untagged bounds
pair. -/
theorem conv1dLocalSpace_pairs (cfg : ConvCfg) :
    ∀ kv ∈ conv1dLocalSpace cfg, kv.2.hasKind = false := by
  intro kv hm
  rw [conv1dLocalSpace] at hm
  rcases List.mem_append.mp hm with h | h
  · rcases List.mem_cons.mp h with h1 | h1
    · simp [h1, Decl.hasKind]
    · rcases List.mem_singleton.mp h1 with h2
      simp [h2, Decl.hasKind]
  · exact regularizedLocalSpace_pairs cfg kv h

/-- Unpacking a space whose pair segment is followed by a kinded triple
raises the `ValueError`. -/
theorem renderDefaults_append_triple (l1 l2 : SpaceMap) (k s : String)
    (lo hi : ℚ) (h : ∀ kv ∈ l1, kv.2.hasKind = false) :
    renderDefaults (l1 ++ ((k, .triple s lo hi) :: l2)) =
      .error .valueError := by
  induction l1 with
  | nil => rfl
  | cons kv tl ih =>
    rcases kv with ⟨k1, d1⟩
    cases d1 with
    | pair lo1 hi1 =>
      rw [List.cons_append, renderDefaults,
        ih (fun kv hm => h kv (List.mem_cons_of_mem _ hm))]
      rfl
    | triple s1 lo1 hi1 =>
      exact absurd (h _ (List.mem_cons_self _ _)) (by simp [Decl.hasKind])

/-- Rendering defaults over any namespaced `Conv1DRectangularMetaLayer`
local space hits the kinded `strides` triple and raises. -/
theorem renderDefaults_conv_node_err (nd : Node) (cfg : ConvCfg)
    (a b c d e f : ℚ) :
    renderDefaults ((conv1dRectLocalSpace cfg a b c d e f).map
      (fun kv => (nd.nsKey kv.1, kv.2))) = .error .valueError := by
  rw [conv1dRectLocalSpace, List.map_append, List.map_cons, List.map_cons,
    List.map_cons, List.map_nil]
  refine renderDefaults_append_triple _ _ _ _ _ _ ?_
  intro kv hm
  obtain ⟨kv0, h0, hh⟩ := List.mem_map.mp hm
  rw [← hh]
  exact conv1dLocalSpace_pairs cfg kv0 h0

/-- C9: every node type whose local declarations carry a
`(distribution, low, high)` triple -- `MaxPool1DMetaLayer`,
`DropoutMetaLayer` and `Conv1DRectangularMetaLayer`, for *every*
construction-time configuration -- raises the unpacking `ValueError` from
`MetaLayer.space`'s `for key, (first, second) in layer_space.items()`
destructuring as soon as `space()` is called on it. -/
theorem triple_decl_space_raises_unpack_error :
    (∀ (minP maxP : ℚ),
      (spaceAt 1 [⟨"MaxPool1DMetaLayer", "_", 0, [], .maxpoolK minP maxP⟩]
          0 initSt).2 = .error .valueError)
    ∧ (∀ (minR maxR : ℚ),
      (spaceAt 1 [⟨"DropoutMetaLayer", "_", 0, [], .dropoutK minR maxR⟩]
          0 initSt).2 = .error .valueError)
    ∧ (∀ (fuel : Nat) (cfg : ConvCfg) (a b c d e f : ℚ) (res : Bool),
      (spaceAt (fuel + 1) [⟨"Conv1DRectangularMetaLayer", "_", 0, [],
          .conv1dRectK cfg a b c d e f res⟩] 0 initSt).2 =
        .error .valueError) := by
  refine ⟨fun minP maxP => rfl, fun minR maxR => rfl, ?_⟩
  intro fuel cfg a b c d e f res
  simp [spaceAt, localSpaceOf, initSt, renderDefaults_conv_node_err]

/-- With `filters`, `kernel_size` and the regularizer weights available,
one conv sub-operation build succeeds. -/
theorem convCore_isOk (cfg : ConvCfg) (kw : KwMap) (fv kv : ℚ)
    (regs : List (String × Option ℚ × Option ℚ))
    (hf : kwLookup kw "filters" = some fv)
    (hk : kwLookup kw "kernel_size" = some kv)
    (hr : buildRegularizers cfg kw = .ok regs) (s : ℤ) (inp : Artifact) :
    ∃ a', convCore cfg kw s inp = .ok a' := by
  rw [convCore, hf, hk]
  by_cases h0 : pyInt fv = 0
  · exact ⟨inp, by simp [h0]⟩
  · refine ⟨.activationA cfg.activation
      (bnWrapConv cfg (.conv1dA (pyInt fv) (pyInt kv) s regs inp)), ?_⟩
    simp only [h0, if_false, hr]
    rfl

/-- Under the same conditions the whole layer loop succeeds. -/
theorem convLoop_isOk (cfg : ConvCfg) (kw : KwMap) (fv kv : ℚ)
    (regs : List (String × Option ℚ × Option ℚ))
    (hf : kwLookup kw "filters" = some fv)
    (hk : kwLookup kw "kernel_size" = some kv)
    (hr : buildRegularizers cfg kw = .ok regs) (s : ℤ) :
    ∀ (n : Nat) (a : Artifact), ∃ a', convLoop cfg kw s n a = .ok a' := by
  intro n
  induction n with
  | zero => exact fun a => ⟨a, rfl⟩
  | succ k ih =>
    intro a
    obtain ⟨a1, h1⟩ := convCore_isOk cfg kw fv kv regs hf hk hr s a
    obtain ⟨a2, h2⟩ := ih a1
    refine ⟨a2, ?_⟩
    rw [convLoop, h1]
    exact h2

/-- Under the same conditions the chain part of the rectangular conv block
succeeds. -/
theorem convChainPart_isOk (cfg : ConvCfg) (res : Bool) (kw : KwMap)
    (fv kv : ℚ) (regs : List (String × Option ℚ × Option ℚ))
    (hf : kwLookup kw "filters" = some fv)
    (hk : kwLookup kw "kernel_size" = some kv)
    (hr : buildRegularizers cfg kw = .ok regs)
    (inp : Artifact) (layers strides : ℤ) :
    ∃ a' c, convChainPart cfg res kw inp layers strides = .ok (a', c) := by
  obtain ⟨a1, h1⟩ := convCore_isOk cfg kw fv kv regs hf hk hr
    (if 1 < layers then 1 else strides) inp
  obtain ⟨a2, h2⟩ := convLoop_isOk cfg kw fv kv regs hf hk hr
    (if 2 < layers then 1 else strides) ((layers - 2).toNat) a1
  by_cases hle : layers ≤ 2
  · refine ⟨a2, 1 + (layers - 2).toNat, ?_⟩
    simp only [convChainPart, h1, h2, hle, if_true]
  · obtain ⟨a3, h3⟩ := convCore_isOk cfg kw fv kv regs hf hk hr strides
      (if res then .addA [a1, a2] else a2)
    refine ⟨a3, 1 + (layers - 2).toNat + 1, ?_⟩
    simp only [convChainPart, h1, h2, hle, if_false, h3]
    rfl

/-- C8: for every construction-time configuration of
`Conv1DRectangularMetaLayer` and every assignment carrying the parameters
its chain needs, `_build` with a sampled layer count of at least 1 raises
`AttributeError` (its final statement invokes `self._dropout._build` on the
boolean dropout flag stored by `RegularizedMetaLayer.__init__`), while the
`layers == 0` identity-skip branch returns the input normally. -/
theorem conv1d_rect_build_attribute_error
    (cfg : ConvCfg) (res : Bool) (inp : Artifact)
    (lq sq pq dr : ℚ) (kw : KwMap) (fv kv : ℚ)
    (regs : List (String × Option ℚ × Option ℚ))
    (hf : kwLookup kw "filters" = some fv)
    (hk : kwLookup kw "kernel_size" = some kv)
    (hr : buildRegularizers cfg kw = .ok regs) :
    (1 ≤ pyRound lq →
      conv1dRectBody cfg res inp lq sq pq dr kw = .error .attributeError)
    ∧ (pyRound lq = 0 →
      conv1dRectBody cfg res inp lq sq pq dr kw = .ok (inp, 0)) := by
  constructor
  · intro h1
    have h0 : ¬ (pyRound lq = 0) := by omega
    obtain ⟨a', c, hc⟩ := convChainPart_isOk cfg res kw fv kv regs hf hk hr
      inp (pyRound lq) (pyRound sq)
    rw [conv1dRectBody]
    simp only [h0, if_false, hc]
    rfl
  · intro h0
    rw [conv1dRectBody]
    simp [h0]

/-- Witness for C8 at layer counts 2 and 0. -/
theorem conv1d_rect_build_attribute_error_witness :
    conv1dRectBody convCfgW false .noneA 2 1 0 0 kwConvW =
        .error .attributeError
    ∧ conv1dRectBody convCfgW false .noneA 0 1 0 0 kwConvW =
        .ok (.noneA, 0) :=
  ⟨(conv1d_rect_build_attribute_error convCfgW false .noneA 2 1 0 0 kwConvW
      3 2 [] (by with_unfolding_all rfl) (by with_unfolding_all rfl)
      (by with_unfolding_all rfl)).1 (by with_unfolding_all decide),
   (conv1d_rect_build_attribute_error convCfgW false .noneA 0 1 0 0 kwConvW
      3 2 [] (by with_unfolding_all rfl) (by with_unfolding_all rfl)
      (by with_unfolding_all rfl)).2 (by with_unfolding_all decide)⟩

/-- Closed form of one conv sub-operation build. -/
theorem convCore_eq (cfg : ConvCfg) (kw : KwMap) (fv kv : ℚ)
    (regs : List (String × Option ℚ × Option ℚ))
    (hf : kwLookup kw "filters" = some fv)
    (hk : kwLookup kw "kernel_size" = some kv)
    (hr : buildRegularizers cfg kw = .ok regs) (s : ℤ) (inp : Artifact) :
    convCore cfg kw s inp = .ok (convArt cfg fv kv regs s inp) := by
  rw [convCore, hf, hk, convArt]
  by_cases h0 : pyInt fv = 0
  · simp [h0]
  · simp only [h0, if_false, hr]
    rfl

/-- Closed form of the conv layer loop at stride 1. -/
theorem convLoop_chain (cfg : ConvCfg) (kw : KwMap) (fv kv : ℚ)
    (regs : List (String × Option ℚ × Option ℚ)) (inp : Artifact)
    (hf : kwLookup kw "filters" = some fv)
    (hk : kwLookup kw "kernel_size" = some kv)
    (hr : buildRegularizers cfg kw = .ok regs) :
    ∀ (k m : Nat), convLoop cfg kw 1 k (convChainN cfg fv kv regs inp m) =
      .ok (convChainN cfg fv kv regs inp (k + m)) := by
  intro k
  induction k with
  | zero => intro m; rw [Nat.zero_add]; rfl
  | succ j ih =>
    intro m
    rw [convLoop, convCore_eq cfg kw fv kv regs hf hk hr]
    have := ih (m + 1)
    rw [show j + (m + 1) = j + 1 + m from by omega] at this
    exact this

/-- Iterating the dense sub-operation extends the dense chain. -/
theorem denseChainN_iterate (cfg : DenseCfg) (u : ℚ) (inp : Artifact) :
    ∀ (k m : Nat), (fun h => denseCore cfg h u)^[k]
        (denseChainN cfg u inp m) = denseChainN cfg u inp (k + m) := by
  intro k
  induction k with
  | zero => intro m; rw [Nat.zero_add]; rfl
  | succ j ih =>
    intro m
    rw [Function.iterate_succ_apply]
    have : denseCore cfg (denseChainN cfg u inp m) u =
        denseChainN cfg u inp (m + 1) := rfl
    rw [this, ih (m + 1), show j + (m + 1) = j + 1 + m from by omega]

/-- C4, counterexample: a dense rectangular block with residuality enabled
and a sampled layer count of 2 builds exactly *one* sub-operation (one
`Dense`+`Activation` stack, no `Add` wiring), not a chain of two --
`range(1, layers - 1)` is empty and the final sub-operation is only built
when `layers > 2`. -/
theorem rect_two_layers_builds_single_sublayer_cex :
    denseRectBody (denseCfgStd 0 16) true (.inputA [8] none) 4 2 [] =
      .ok (.activationA "relu" (.denseA 4 (.inputA [8] none)), 1)
    ∧ (denseRectBody (denseCfgStd 0 16) true (.inputA [8] none) 4 2 []).map
        (fun r => r.2) = .ok 1
    ∧ Except.ok (ε := PyErr) (1 : Nat) ≠ .ok 2 := by
  refine ⟨by with_unfolding_all rfl, by with_unfolding_all rfl, ?_⟩
  intro h
  exact absurd (Except.ok.inj h) (by norm_num)

/-- C4, amended: for a rectangular block (dense or conv) with rounded layer
count `L`: `L = 0` is full elision (no sub-operation); `L = 1` builds one
sub-operation (the conv variant applying the sampled stride to it);
`L = 2` also builds exactly one sub-operation, with no residual wiring and
-- in the conv variant -- *without* applying the sampled stride; and only
for `L >= 3` does the block build a chain of `L` sub-operations in which,
with residuality enabled, the first sub-operation's output is summed with
the penultimate accumulated output before the final sub-operation, all
non-final conv sub-operations use stride 1, and only the final one applies
the sampled stride. -/
theorem rect_block_layer_count_behaviour
    (cfg : DenseCfg) (ccfg : ConvCfg) (res : Bool) (inp : Artifact)
    (u lq : ℚ) (s : ℤ) (kw : KwMap) (fv kv : ℚ)
    (regs : List (String × Option ℚ × Option ℚ))
    (hf : kwLookup kw "filters" = some fv)
    (hk : kwLookup kw "kernel_size" = some kv)
    (hr : buildRegularizers ccfg kw = .ok regs) :
    (pyRound lq = 0 → denseRectBody cfg res inp u lq [] = .ok (inp, 0))
    ∧ (pyRound lq = 1 ∨ pyRound lq = 2 →
        denseRectBody cfg res inp u lq [] =
          .ok (denseChainN cfg u inp 1, 1))
    ∧ (3 ≤ pyRound lq →
        denseRectBody cfg res inp u lq [] =
          .ok (denseCore cfg
              (if res then .addA [denseChainN cfg u inp 1,
                  denseChainN cfg u inp ((pyRound lq).toNat - 1)]
               else denseChainN cfg u inp ((pyRound lq).toNat - 1)) u,
            (pyRound lq).toNat))
    ∧ (convChainPart ccfg res kw inp 1 s =
        .ok (convArt ccfg fv kv regs s inp, 1))
    ∧ (convChainPart ccfg res kw inp 2 s =
        .ok (convArt ccfg fv kv regs 1 inp, 1))
    ∧ (∀ L : ℤ, 3 ≤ L →
        convChainPart ccfg res kw inp L s =
          .ok (convArt ccfg fv kv regs s
              (if res then .addA [convChainN ccfg fv kv regs inp 1,
                  convChainN ccfg fv kv regs inp (L.toNat - 1)]
               else convChainN ccfg fv kv regs inp (L.toNat - 1)),
            L.toNat)) := by
  refine ⟨?_, ?_, ?_, ?_, ?_, ?_⟩
  · intro h0
    rw [denseRectBody]
    simp [h0]
  · intro h12
    rcases h12 with h | h <;>
    · rw [denseRectBody]
      simp only [h]
      norm_num
      rfl
  · intro h3
    rw [denseRectBody]
    have h0 : ¬ (pyRound lq = 0) := by omega
    have hle : ¬ (pyRound lq ≤ 2) := by omega
    simp only [h0, if_false, if_true, List.isEmpty_nil, if_pos]
    have hfirst : denseCore cfg inp u = denseChainN cfg u inp 1 := rfl
    rw [hfirst, denseChainN_iterate cfg u inp]
    simp only [hle, if_false]
    have harith : (pyRound lq - 2).toNat + 1 = (pyRound lq).toNat - 1 := by
      omega
    have hcount : 1 + (pyRound lq - 2).toNat + 1 = (pyRound lq).toNat := by
      omega
    rw [harith, hcount]
  · have h1 : (if (1:ℤ) < 1 then (1:ℤ) else s) = s := by norm_num
    rw [convChainPart, h1, convCore_eq ccfg kw fv kv regs hf hk hr]
    rfl
  · have h1 : (if (1:ℤ) < 2 then (1:ℤ) else s) = 1 := by norm_num
    rw [convChainPart, h1, convCore_eq ccfg kw fv kv regs hf hk hr]
    rfl
  · intro L hL
    have h1 : (if 1 < L then (1:ℤ) else s) = 1 := if_pos (by omega)
    have h2 : (if 2 < L then (1:ℤ) else s) = 1 := if_pos (by omega)
    have hle : ¬ (L ≤ 2) := by omega
    have hloop : convLoop ccfg kw 1 (L - 2).toNat
        (convArt ccfg fv kv regs 1 inp) =
        .ok (convChainN ccfg fv kv regs inp (L.toNat - 1)) := by
      have hx := convLoop_chain ccfg kw fv kv regs inp hf hk hr
        ((L - 2).toNat) 1
      rw [show (L - 2).toNat + 1 = L.toNat - 1 from by omega] at hx
      exact hx
    have hcount : 1 + (L - 2).toNat + 1 = L.toNat := by omega
    rw [convChainPart, h1, h2, convCore_eq ccfg kw fv kv regs hf hk hr]
    simp only [hloop, hle, if_false,
      convCore_eq ccfg kw fv kv regs hf hk hr, Except.map, hcount]
    rfl

/-- Witness for the amended C4 theorem: a dense rectangular residual block
with three layers and a conv chain with two layers at sampled stride 2. -/
theorem rect_block_layer_count_behaviour_witness :
    denseRectBody (denseCfgStd 0 16) true (.inputA [8] none) 4 3 [] =
      .ok (denseCore (denseCfgStd 0 16)
          (.addA [denseChainN (denseCfgStd 0 16) 4 (.inputA [8] none) 1,
            denseChainN (denseCfgStd 0 16) 4 (.inputA [8] none)
              ((pyRound 3).toNat - 1)]) 4,
        (pyRound 3).toNat)
    ∧ convChainPart convCfgW true kwConvW (.inputA [8] none) 2 2 =
        .ok (convArt convCfgW 3 2 [] 1 (.inputA [8] none), 1) := by
  have h := rect_block_layer_count_behaviour (denseCfgStd 0 16) convCfgW
    true (.inputA [8] none) 4 3 2 kwConvW 3 2 []
    (by with_unfolding_all rfl) (by with_unfolding_all rfl)
    (by with_unfolding_all rfl)
  exact ⟨by simpa using h.2.2.1 (by with_unfolding_all decide), h.2.2.2.2.1⟩

/-- Filtering an assignment none of whose keys start with the node's
prefix yields nothing. -/
theorem filterRelevantKwargs_nil (p sep : String) (kwargs : KwMap)
    (h : ∀ kv ∈ kwargs, strStartsWith kv.1 p = false) :
    filterRelevantKwargs p sep kwargs = [] := by
  induction kwargs with
  | nil => rfl
  | cons kv tl ih =>
    have h1 := h kv (List.mem_cons_self _ _)
    have ih2 := ih (fun kv hm => h kv (List.mem_cons_of_mem _ hm))
    rw [filterRelevantKwargs] at ih2 ⊢
    rw [List.filterMap_cons]
    simp only [h1, if_false]
    exact ih2

/-- A doubly-appended string starts with its first part. -/
theorem strStartsWith_append2 (p s loc : String) :
    strStartsWith (p ++ s ++ loc) p = true := by
  rw [strStartsWith, isPrefixOf_iff, String.data_append, String.data_append]
  exact (List.prefix_append _ _).trans (List.prefix_append _ _)

/-- No key of such an assignment equals the node's namespaced key. -/
theorem kwargs_any_nsKey_false (p sep loc : String) (kwargs : KwMap)
    (h : ∀ kv ∈ kwargs, strStartsWith kv.1 p = false) :
    (kwargs.any (fun kv2 => kv2.1 == p ++ sep ++ loc)) = false := by
  induction kwargs with
  | nil => rfl
  | cons kv tl ih =>
    have ih2 := ih (fun kv hm => h kv (List.mem_cons_of_mem _ hm))
    rw [List.any_cons]
    rcases heq : (kv.1 == p ++ sep ++ loc) with _ | _
    · simpa [heq] using ih2
    · have hkv := h kv (List.mem_cons_self _ _)
      rw [eq_of_beq heq] at hkv
      rw [strStartsWith_append2] at hkv
      exact absurd hkv (by simp)

set_option maxHeartbeats 1000000 in
/-- C2: a parameter whose declared bounds coincide (`HeadMetaLayer`'s
`units`) is never exposed by `space()` -- the rendered space of the
input-plus-head graph is empty -- yet `build(**assignment)` still hands the
fixed value to the head's construction procedure through the rendered
defaults: its `_build` receives exactly the mapping `units = u` and
constructs the dense layer with it, for every assignment that carries no
key of the head's namespace. -/
theorem degenerate_bounds_elided_yet_passed_at_build
    (fuel : Nat) (u : ℚ) (kwargs : KwMap)
    (hk : ∀ kv ∈ kwargs, strStartsWith kv.1 "HeadMetaLayer_0" = false) :
    (spaceAt (fuel + 2) (gHead u) 1 initSt).2 = .ok []
    ∧ (buildAt (fuel + 2) (gHead u) kwargs 1
        (spaceAt (fuel + 2) (gHead u) 1 initSt).1).1.receivedKw 1 =
      some [("units", u)]
    ∧ (buildAt (fuel + 2) (gHead u) kwargs 1
        (spaceAt (fuel + 2) (gHead u) 1 initSt).1).2 =
      .ok (denseCore (headDenseCfg u) (.inputA [8] none) u) := by
  have htos : (toString (0 : Nat) : String) = "0" := by with_unfolding_all rfl
  have hany : (kwargs.any (fun kv2 => kv2.1 == "HeadMetaLayer_0_units")) =
      false := by
    have h1 := kwargs_any_nsKey_false "HeadMetaLayer_0" "_" "units" kwargs hk
    rw [show ("HeadMetaLayer_0" ++ "_" ++ "units" : String) =
      "HeadMetaLayer_0_units" from by with_unfolding_all rfl] at h1
    exact h1
  have hfilterL : List.filterMap
      (fun kv => if strStartsWith kv.1 "HeadMetaLayer_0" = true then
        some (strDrop kv.1 (strLen "HeadMetaLayer_0" + strLen "_"), kv.2)
      else none) kwargs = [] := by
    have h2 := filterRelevantKwargs_nil "HeadMetaLayer_0" "_" kwargs hk
    rw [filterRelevantKwargs] at h2
    exact h2
  have hsw1 : strStartsWith "HeadMetaLayer_0_units" "HeadMetaLayer_0" =
      true := by with_unfolding_all rfl
  have hdrop : strDrop "HeadMetaLayer_0_units"
      (strLen "HeadMetaLayer_0" + strLen "_") = "units" := by
    with_unfolding_all rfl
  simp [spaceAt, buildAt, gHead, initSt, localSpaceOf, denseLocalSpace,
    headDenseCfg, denseCfgStd, renderDefaults, chainIter, dictUpdate,
    dictInsert, updF, Node.nsKey, Node.layerPfx, htos, iscloseQ_self,
    mergeKw, hany, filterRelevantKwargs, List.filterMap_append, hfilterL,
    runBuild, prevShape, denseBuildKw, kwLookup, kwRemove, Except.map,
    hsw1, hdrop]

/-- Witness for C2 with the empty assignment and `units = 1`. -/
theorem degenerate_bounds_elided_yet_passed_at_build_witness :
    (spaceAt (0 + 2) (gHead 1) 1 initSt).2 = .ok []
    ∧ (buildAt (0 + 2) (gHead 1) [] 1
        (spaceAt (0 + 2) (gHead 1) 1 initSt).1).1.receivedKw 1 =
      some [("units", 1)]
    ∧ (buildAt (0 + 2) (gHead 1) [] 1
        (spaceAt (0 + 2) (gHead 1) 1 initSt).1).2 =
      .ok (denseCore (headDenseCfg 1) (.inputA [8] none) 1) :=
  degenerate_bounds_elided_yet_passed_at_build 0 1 []
    (fun kv h => absurd h (List.not_mem_nil kv))

/-- C10: `MetaModel.build` renders the space before building when it has
not been rendered yet -- on the FFNN-style model a fresh `build` populates
every layer's rendered defaults and returns the built artifacts -- whereas
calling `MetaLayer.build` directly on any node with no predecessors whose
`space()` has never been invoked raises `TypeError`, because its
`_rendered_defaults` is still `None` when splatted into the build kwargs
(shown concretely for the head node of the same fresh graph). -/
theorem model_build_renders_space_but_direct_build_fails
    (fuel : Nat) (g : Graph) (i : Nat) (st : EngSt) (kwargs : KwMap)
    (nd : Node) (hg : g[i]? = some nd) (hpreds : nd.preds = [])
    (hB : st.builtLayer i = none) (hd : st.renderedDefaults i = none) :
    buildAt (fuel + 1) g kwargs i st = (st, .error .typeError)
    ∧ (modelBuild 10 mFF false initSt kwFFa).2.2 =
        .ok ([.inputA [8] none], [ffArtA])
    ∧ (modelBuild 10 mFF false initSt kwFFa).2.1.renderedDefaults 2 =
        some [("HeadMetaLayer_0_units", 1)]
    ∧ (modelBuild 10 mFF false initSt kwFFa).2.1.renderedDefaults 1 =
        some []
    ∧ (buildAt 10 gFF kwFFa 2 initSt).2 = .error .typeError :=
  ⟨by simp [buildAt, hg, hpreds, hB, hd],
   by with_unfolding_all rfl,
   by with_unfolding_all rfl,
   by with_unfolding_all rfl,
   by with_unfolding_all rfl⟩

/-- Witness for C10 at the fresh input node of the FFNN-style graph. -/
theorem model_build_renders_space_but_direct_build_fails_witness :
    buildAt (0 + 1) gFF [] 0 initSt = (initSt, .error .typeError)
    ∧ (modelBuild 10 mFF false initSt kwFFa).2.2 =
        .ok ([.inputA [8] none], [ffArtA])
    ∧ (modelBuild 10 mFF false initSt kwFFa).2.1.renderedDefaults 2 =
        some [("HeadMetaLayer_0_units", 1)]
    ∧ (modelBuild 10 mFF false initSt kwFFa).2.1.renderedDefaults 1 =
        some []
    ∧ (buildAt 10 gFF kwFFa 2 initSt).2 = .error .typeError :=
  model_build_renders_space_but_direct_build_fails 0 gFF 0 initSt []
    ⟨"InputMetaLayer", "_", 0, [], .inputK [8] none⟩ rfl rfl rfl rfl

/-- Mapping over a successful result. -/
theorem exceptMap_ok {ε α β : Type} (f : α → β) (a : α) :
    (Except.ok (ε := ε) a).map f = .ok (f a) := rfl

/-- Mapping over an exception. -/
theorem exceptMap_error {ε α β : Type} (f : α → β) (e : ε) :
    (Except.error (α := α) e).map f = .error e := rfl

/-- The dense rectangular `_build` never raises when given no extra
kwargs, and its artifact follows the closed form `denseRectArt`. -/
theorem denseRectBody_fst (cfg : DenseCfg) (res : Bool) (inp : Artifact)
    (u lq : ℚ) :
    (denseRectBody cfg res inp u lq []).map (·.1) =
      .ok (denseRectArt cfg res inp u lq) := by
  rw [denseRectBody, denseRectArt]
  by_cases h0 : pyRound lq = 0
  · simp [h0, Except.map]
  · simp only [h0, if_false, List.isEmpty_nil, if_true]
    by_cases h2 : pyRound lq ≤ 2 <;> simp [h2, Except.map]

set_option maxHeartbeats 2000000 in
/-- C5: each `MetaModel.build` call on the FFNN-style assembler both
builds every input and output node with the given assignment and resets
the output subgraph within that same call, so two successive `build`
calls with different sampled assignments -- and no external reset in
between -- return artifacts that each reflect their own assignment: the
first call yields the closed-form artifact for `(u1, l1)` and the second,
run on the exact model state the first left behind, yields the closed-form
artifact for `(u2, l2)` rather than the first call's cached one. -/
theorem meta_model_two_builds_reflect_each_assignment
    (fuel : Nat) (u1 l1 u2 l2 : ℚ) :
    (modelBuild (fuel + 3) mFF false initSt (kwFF u1 l1)).2.2 =
      .ok ([.inputA [8] none], [ffExpected u1 l1])
    ∧ (modelBuild (fuel + 3) mFF
        (modelBuild (fuel + 3) mFF false initSt (kwFF u1 l1)).1
        (modelBuild (fuel + 3) mFF false initSt (kwFF u1 l1)).2.1
        (kwFF u2 l2)).2.2 =
      .ok ([.inputA [8] none], [ffExpected u2 l2]) := by
  have htos : (toString (0 : Nat) : String) = "0" := by with_unfolding_all rfl
  have hs1 : strStartsWith "DenseRectangularMetaLayer_0_units"
      "InputMetaLayer_0" = false := by with_unfolding_all rfl
  have hs2 : strStartsWith "DenseRectangularMetaLayer_0_layers"
      "InputMetaLayer_0" = false := by with_unfolding_all rfl
  have hs3 : strStartsWith "DenseRectangularMetaLayer_0_units"
      "DenseRectangularMetaLayer_0" = true := by with_unfolding_all rfl
  have hs4 : strStartsWith "DenseRectangularMetaLayer_0_layers"
      "DenseRectangularMetaLayer_0" = true := by with_unfolding_all rfl
  have hs5 : strStartsWith "DenseRectangularMetaLayer_0_units"
      "HeadMetaLayer_0" = false := by with_unfolding_all rfl
  have hs6 : strStartsWith "DenseRectangularMetaLayer_0_layers"
      "HeadMetaLayer_0" = false := by with_unfolding_all rfl
  have hs7 : strStartsWith "HeadMetaLayer_0_units" "HeadMetaLayer_0" =
      true := by with_unfolding_all rfl
  have hd1 : strDrop "DenseRectangularMetaLayer_0_units"
      (strLen "DenseRectangularMetaLayer_0" + strLen "_") = "units" := by
    with_unfolding_all rfl
  have hd2 : strDrop "DenseRectangularMetaLayer_0_layers"
      (strLen "DenseRectangularMetaLayer_0" + strLen "_") = "layers" := by
    with_unfolding_all rfl
  have hd3 : strDrop "HeadMetaLayer_0_units"
      (strLen "HeadMetaLayer_0" + strLen "_") = "units" := by
    with_unfolding_all rfl
  have hic1 : iscloseQ 0 16 = false := by with_unfolding_all rfl
  have hic2 : iscloseQ 0 5 = false := by with_unfolding_all rfl
  have hic3 : iscloseQ 1 1 = true := by with_unfolding_all rfl
  constructor <;>
  simp [modelBuild, modelSpace, spaceList, buildList, resetList, spaceAt,
    buildAt, resetAt, mFF, gFF, kwFF, initSt, localSpaceOf, denseLocalSpace,
    denseRectLocalSpace, headDenseCfg, denseCfgStd, renderDefaults,
    chainIter, dictUpdate, dictInsert, updF, Node.nsKey, Node.layerPfx,
    htos, hic1, hic2, hic3, mergeKw, filterRelevantKwargs, runBuild,
    prevShape, denseBuildKw, denseRectBuildKw, denseRectBody_fst, kwLookup,
    kwRemove, exceptMap_ok, exceptMap_error, ffExpected, Artifact.isNone,
    hs1, hs2, hs3, hs4, hs5, hs6, hs7, hd1, hd2, hd3]
